import Mathlib

/-!
Verification of the reliable downstream delivery subsystem of
`src/app.py` (odoo_wex_proxy): the acknowledgment registry, the retry
worker `_forward_with_ack`, the backoff computation, the authorization
check, the `/ack` endpoint, the status skeleton of `/proxy`, and the
environment-driven configuration loading.  Python values appearing in
payload dictionaries are embedded as `PyVal`; machine integers are `Int`;
the random jitter source and the wait/sleep primitives are abstracted as
explicit inputs (a jitter stream, an acknowledgment schedule, a
post-outcome stream) so a worker run becomes a pure function producing a
trace.
-/

/-- Embedding of the Python values stored in the JSON payload dictionaries:
strings, integers and `None`.  (The payloads built by the source only ever
hold strings, numbers and `None` in the positions the claims touch.) -/
inductive PyVal where
  | str (s : String)
  | int (n : Int)
  | none_
deriving DecidableEq, Repr

/-- A Python dict with string keys, as an ordered association list. -/
abbrev PyDict := List (String × PyVal)

/-- Python truthiness for `PyVal`: empty string, zero and `None` are falsy. -/
def truthy : PyVal → Bool
  | .str s => decide (s ≠ "")
  | .int n => decide (n ≠ 0)
  | .none_ => false

/-- Python `d.get(k)`: value of the first binding of `k`, else `None`. -/
def dictGet : PyDict → String → PyVal
  | [], _ => .none_
  | p :: d, k => if p.1 = k then p.2 else dictGet d k

/-- Python `d[k] = v`: replace the binding of `k` if present, else append. -/
def dictSet : PyDict → String → PyVal → PyDict
  | [], k, v => [(k, v)]
  | p :: d, k, v => if p.1 = k then (k, v) :: d else p :: dictSet d k v

/-- Python `a or b` on payload values. -/
def pyOr (a b : PyVal) : PyVal := if truthy a then a else b

/-- Line 87 of `src/app.py`:
`delivery_id = payload.get('_delivery_id') or str(uuid.uuid4())`,
with the freshly generated UUID string passed in explicitly. -/
def mkDeliveryId (payload : PyDict) (uuid : String) : PyVal :=
  pyOr (dictGet payload "_delivery_id") (.str uuid)

/-- Lines 92-94 of `src/app.py`: `enriched = dict(payload)` followed by
assignment of `_delivery_id` and `_delivery_attempt`. -/
def enrich (payload : PyDict) (deliveryId : PyVal) (attempt : Nat) : PyDict :=
  dictSet (dictSet payload "_delivery_id" deliveryId) "_delivery_attempt" (.int attempt)

/-- Python `int()` applied to a float: truncation toward zero.  On a
rational in lowest terms this is the T-division of numerator by
denominator. -/
def pyTrunc (q : Rat) : Int := q.num.tdiv q.den

/-- Line 112 of `src/app.py`: `base = DOWNSTREAM_RETRY_BASE_SECONDS * (2 ** (attempt - 1))`. -/
def backoffBase (b : Int) (attempt : Nat) : Int := b * 2 ^ (attempt - 1)

/-- Lines 112-114 of `src/app.py`: jitter `j` stands for the value of
`random.uniform(-0.2, 0.2)`, so `jitter = base * j` and
`sleep_s = max(1, int(base + jitter))`. -/
def sleepSeconds (b : Int) (attempt : Nat) (j : Rat) : Int :=
  max 1 (pyTrunc ((backoffBase b attempt : Int) + (backoffBase b attempt : Int) * j))

/-- Outcome of one `requests.post` call to the downstream webhook
(line 96): either some HTTP response, or an exception caught at line 101. -/
inductive PostOutcome where
  | response (status : Int)
  | transportError (msg : String)
deriving DecidableEq, Repr

/-- Terminal condition of a worker run: acknowledged early return
(line 108) or fall-through after the final attempt (lines 118-119). -/
inductive FinalState where
  | acknowledged
  | exhausted
deriving DecidableEq, Repr

/-- Observable trace of one `_forward_with_ack` run: attempt numbers in
order, payloads sent, post outcomes, number of `ev.wait` calls, the backoff
sleep durations, the terminal state, and whether `_clear_ack_event` ran. -/
structure WorkerTrace where
  attempts : List Nat
  sent : List PyDict
  posts : List PostOutcome
  waits : Nat
  sleeps : List Int
  final : FinalState
  removed : Bool
deriving DecidableEq, Repr

/-- Loop of `_forward_with_ack` (lines 90-119), recursing on the number of
remaining iterations of `for attempt in range(1, attempts + 1)`.  `n` is
the configured attempt count, `send k` the enriched payload of attempt `k`,
`ack k` whether `ev.wait(timeout=ACK_TIMEOUT_SECONDS)` returns `True`
during attempt `k`, `post k` the outcome of attempt `k`'s POST and
`jitter k` the uniform jitter drawn after attempt `k`. -/
def forwardLoopAux (n : Nat) (b : Int) (send : Nat → PyDict) (ack : Nat → Bool)
    (post : Nat → PostOutcome) (jitter : Nat → Rat) : Nat → Nat → WorkerTrace
  | 0, _ =>
      { attempts := [], sent := [], posts := [], waits := 0, sleeps := [],
        final := .exhausted, removed := true }
  | remaining + 1, attempt =>
      if ack attempt then
        { attempts := [attempt], sent := [send attempt], posts := [post attempt],
          waits := 1, sleeps := [], final := .acknowledged, removed := true }
      else
        let rest := forwardLoopAux n b send ack post jitter remaining (attempt + 1)
        { attempts := attempt :: rest.attempts,
          sent := send attempt :: rest.sent,
          posts := post attempt :: rest.posts,
          waits := rest.waits + 1,
          sleeps := (if attempt < n then [sleepSeconds b attempt (jitter attempt)] else [])
                      ++ rest.sleeps,
          final := rest.final,
          removed := rest.removed }

/-- Function `_forward_with_ack` (lines 81-119) as a trace transformer.
`maxDownstream` is the configured `MAX_DOWNSTREAM` (an `int`; the Python
loop `range(1, attempts + 1)` is empty when it is non-positive, which
`Int.toNat` reflects). -/
def forwardWithAck (maxDownstream b : Int) (payload : PyDict) (uuid : String)
    (ack : Nat → Bool) (post : Nat → PostOutcome) (jitter : Nat → Rat) : WorkerTrace :=
  forwardLoopAux maxDownstream.toNat b (enrich payload (mkDeliveryId payload uuid))
    ack post jitter maxDownstream.toNat 1

/-- One `threading.Event` instance: an identity (so distinct instances can
be told apart) and its set-state. -/
structure AckEvent where
  id : Nat
  isSet : Bool
deriving DecidableEq, Repr

/-- The module-level `_ACK_EVENTS` dict (line 56) together with a counter
supplying identities for newly constructed events.  Keys are arbitrary
Python values, as in the source (`payment_id` need not be a string). -/
structure Registry where
  events : List (PyVal × AckEvent)
  nextId : Nat
deriving DecidableEq, Repr

/-- Dictionary lookup `_ACK_EVENTS.get(payment_id)`. -/
def findEvent (r : Registry) (k : PyVal) : Option AckEvent :=
  (r.events.find? (fun p => decide (p.1 = k))).map (fun p => p.2)

/-- Function `_get_or_create_ack_event` (lines 59-65): return the existing
event for the key, or store and return a fresh unset one. -/
def getOrCreateAckEvent (r : Registry) (k : PyVal) : AckEvent × Registry :=
  match findEvent r k with
  | some e => (e, r)
  | none => (⟨r.nextId, false⟩, ⟨(k, ⟨r.nextId, false⟩) :: r.events, r.nextId + 1⟩)

/-- Function `_clear_ack_event` (lines 67-69): `_ACK_EVENTS.pop(payment_id, None)`. -/
def clearAckEvent (r : Registry) (k : PyVal) : Registry :=
  ⟨r.events.filter (fun p => decide (p.1 ≠ k)), r.nextId⟩

/-- Effect of `ev.set()` on the registry entry holding `ev` (line 143). -/
def setAckEvent (r : Registry) (k : PyVal) : Registry :=
  ⟨r.events.map (fun p => if p.1 = k then (p.1, ⟨p.2.id, true⟩) else p), r.nextId⟩

/-- Python truthiness of the optional `AUTH_TOKEN` environment value. -/
def authTruthy : Option String → Bool
  | none => false
  | some s => decide (s ≠ "")

/-- Lines 72-76 of `src/app.py`: the token examined is the body field
`x_studio_proxy_auth_token` when truthy, else the `X-Proxy-Auth-Token`
header (or Python `None` when the header is absent). -/
def tokenOf (bodyTok : PyVal) (header : Option String) : PyVal :=
  if truthy bodyTok then bodyTok
  else match header with
       | some s => .str s
       | none => .none_

/-- Function `_verify_auth_from_body_or_header` (lines 71-79), with the
configured `AUTH_TOKEN`, the body token and the header made explicit. -/
def verifyAuth (auth : Option String) (bodyTok : PyVal) (header : Option String) : Bool :=
  match auth with
  | none => true
  | some a => if a = "" then true else decide (tokenOf bodyTok header = .str a)

/-- A parsed JSON request body: either a JSON object (a dict) or some
non-object value (list, number, string, `null` …), on which Python
attribute access `.get` raises `AttributeError`. -/
inductive PyJson where
  | obj (d : PyDict)
  | nonObj
deriving DecidableEq, Repr

/-- Body token as read by `_verify_auth_from_body_or_header`: present only
when the parsed JSON is a dict (the `isinstance(req_json, dict)` guard). -/
def bodyTokenOf : PyJson → PyVal
  | .obj d => dictGet d "x_studio_proxy_auth_token"
  | .nonObj => .none_

/-- An inbound HTTP request as the handlers see it: the result of
`request.get_json(force=True)` (`none` for a parse failure) and the
optional `X-Proxy-Auth-Token` header. -/
structure AckRequest where
  body : Option PyJson
  headerToken : Option String
deriving DecidableEq, Repr

/-- Result of running a Flask handler: a returned response (status plus a
tag naming the body built in the source), or an exception escaping the
handler (which Flask converts to a 500, not a handler-built response). -/
inductive AckOutcome where
  | response (status : Int) (tag : String)
  | unhandled (err : String)
deriving DecidableEq, Repr

/-- The `/ack` endpoint handler (lines 121-145). -/
def ackHandler (auth : Option String) (req : AckRequest) (r : Registry) :
    AckOutcome × Registry :=
  match req.body with
  | none => (.response 400 "Invalid JSON", r)
  | some j =>
    if verifyAuth auth (bodyTokenOf j) req.headerToken then
      match j with
      | .nonObj => (.unhandled "AttributeError", r)
      | .obj d =>
        let pid := pyOr (dictGet d "payment_id") (dictGet d "x_name")
        if truthy pid then
          let r1 := (getOrCreateAckEvent r pid).2
          (.response 200 "acknowledged", setAckEvent r1 pid)
        else (.response 400 "Missing payment_id", r)
    else (.response 401 "Unauthorized", r)

/-- Result of the call to the Wex API inside `/proxy` (lines 209-229):
either the `requests.post` raised, or a response with a status and the
`detailed_response_message` string (empty when the field is absent). -/
inductive WexCall where
  | failed
  | responded (status : Int) (msg : String)
deriving DecidableEq, Repr

/-- Outcome of the `/proxy` handler, statuses only. -/
inductive ProxyOutcome where
  | response (status : Int) (tag : String)
  | unhandled (err : String)
deriving DecidableEq, Repr

/-- Status skeleton of the `/proxy` handler (lines 147-279): JSON parse
(400), auth check (401), field extraction — abstracted as the flag
`extractOk`, since any failure in the `try` of lines 165-181 yields the
same 400 — the Wex call (502 on exception), the success test on status and
message (line 233), the relay of a failed Wex status, and the virtual-card
parsing of lines 250-252, abstracted as `cardOk` (a missing or malformed
`virtual_card` raises out of the handler). -/
def proxyHandler (auth : Option String) (req : AckRequest) (extractOk : Bool)
    (wex : WexCall) (cardOk : Bool) : ProxyOutcome :=
  match req.body with
  | none => .response 400 "Invalid JSON"
  | some j =>
    if verifyAuth auth (bodyTokenOf j) req.headerToken then
      if extractOk then
        match wex with
        | .failed => .response 502 "Wex API request failed"
        | .responded st msg =>
          if 200 ≤ st ∧ st < 300 ∧ msg.startsWith "Success:" then
            if cardOk then .response 200 "result" else .unhandled "KeyError"
          else .response st "error_payload"
      else .response 400 "Invalid input"
    else .response 401 "Unauthorized"

/-- Strip leading and trailing whitespace, as Python `int(str)` does. -/
def stripChars (cs : List Char) : List Char :=
  ((cs.dropWhile Char.isWhitespace).reverse.dropWhile Char.isWhitespace).reverse

/-- Digit run of a Python integer literal after the first digit:
underscores are permitted singly between digits. -/
def digitsUAux : List Char → Nat → Option Nat
  | [], acc => some acc
  | '_' :: c :: rest, acc =>
      if c.isDigit then digitsUAux rest (acc * 10 + (c.toNat - 48)) else none
  | c :: rest, acc =>
      if c.isDigit then digitsUAux rest (acc * 10 + (c.toNat - 48)) else none

/-- Digit run of a Python integer literal: nonempty, starts with a digit. -/
def parseDigitsU : List Char → Option Nat
  | [] => none
  | c :: rest => if c.isDigit then digitsUAux rest (c.toNat - 48) else none

/-- Python `int(s)` on a decimal string: optional surrounding whitespace,
optional sign, then digits (with single underscores between digits);
`none` models the `ValueError`. -/
def pyParseInt (s : String) : Option Int :=
  match stripChars s.toList with
  | '-' :: rest => (parseDigitsU rest).map (fun n => -(n : Int))
  | '+' :: rest => (parseDigitsU rest).map (fun n => (n : Int))
  | cs => (parseDigitsU cs).map (fun n => (n : Int))

/-- Lines 27-42 of `src/app.py`:
`int(os.getenv(name, defaultStr) or defaultStr)` with the `ValueError`
caught and replaced by the default. -/
def loadIntConfig (env : Option String) (defaultStr : String) (d : Int) : Int :=
  let raw := match env with
             | none => defaultStr
             | some v => v
  let s := if raw = "" then defaultStr else raw
  match pyParseInt s with
  | some n => n
  | none => d

/-- Lines 27-30: `MAX_DOWNSTREAM`, as a function of the environment value. -/
def MAX_DOWNSTREAM (env : Option String) : Int := loadIntConfig env "5" 5

/-- Lines 31-34: `ACK_TIMEOUT_SECONDS`. -/
def ACK_TIMEOUT_SECONDS (env : Option String) : Int := loadIntConfig env "10" 10

/-- Lines 35-38: `DOWNSTREAM_RETRY_BASE_SECONDS`. -/
def DOWNSTREAM_RETRY_BASE_SECONDS (env : Option String) : Int := loadIntConfig env "2" 2

/-- Lines 39-42: `DOWNSTREAM_POST_TIMEOUT_SECONDS`. -/
def DOWNSTREAM_POST_TIMEOUT_SECONDS (env : Option String) : Int := loadIntConfig env "10" 10

/-! ## General lemmas about the worker loop -/

/-- The trace of the worker loop when every wait times out: one attempt per
remaining iteration, a backoff sleep after every non-final attempt, and the
exhausted terminal. -/
theorem forwardLoopAux_exhaust (n : Nat) (b : Int) (send : Nat → PyDict)
    (ack : Nat → Bool) (post : Nat → PostOutcome) (jitter : Nat → Rat)
    (hack : ∀ j, ack j = false) :
    ∀ (remaining attempt : Nat),
    forwardLoopAux n b send ack post jitter remaining attempt =
      { attempts := List.range' attempt remaining,
        sent := (List.range' attempt remaining).map send,
        posts := (List.range' attempt remaining).map post,
        waits := remaining,
        sleeps := ((List.range' attempt remaining).filter (fun j => decide (j < n))).map
                    (fun j => sleepSeconds b j (jitter j)),
        final := .exhausted, removed := true } := by
  intro remaining
  induction remaining with
  | zero => intro attempt; simp [forwardLoopAux]
  | succ r ih =>
    intro attempt
    rw [forwardLoopAux, hack attempt]
    rw [ih (attempt + 1)]
    by_cases h : attempt < n <;>
      simp [h, List.range'_succ, List.filter_cons]

/-- The trace of the worker loop when the first set wait is the one of
attempt `k` and `k` falls inside the executed range. -/
theorem forwardLoopAux_ack (n : Nat) (b : Int) (send : Nat → PyDict)
    (ack : Nat → Bool) (post : Nat → PostOutcome) (jitter : Nat → Rat) (k : Nat)
    (hbefore : ∀ j, j < k → ack j = false) (hk : ack k = true) :
    ∀ (remaining attempt : Nat), attempt ≤ k → k < attempt + remaining →
    forwardLoopAux n b send ack post jitter remaining attempt =
      { attempts := List.range' attempt (k + 1 - attempt),
        sent := (List.range' attempt (k + 1 - attempt)).map send,
        posts := (List.range' attempt (k + 1 - attempt)).map post,
        waits := k + 1 - attempt,
        sleeps := ((List.range' attempt (k - attempt)).filter (fun j => decide (j < n))).map
                    (fun j => sleepSeconds b j (jitter j)),
        final := .acknowledged, removed := true } := by
  intro remaining
  induction remaining with
  | zero => intro attempt h1 h2; omega
  | succ r ih =>
    intro attempt h1 h2
    by_cases he : attempt = k
    · subst he
      simp [forwardLoopAux, hk, show attempt + 1 - attempt = 1 by omega,
        show attempt - attempt = 0 by omega]
    · have hlt : attempt < k := by omega
      rw [forwardLoopAux, hbefore attempt hlt]
      rw [ih (attempt + 1) (by omega) (by omega)]
      have e1 : k + 1 - attempt = (k + 1 - (attempt + 1)) + 1 := by omega
      have e2 : k - attempt = (k - (attempt + 1)) + 1 := by omega
      rw [e1, e2]
      by_cases h : attempt < n <;>
        simp [h, List.range'_succ, List.filter_cons, show k + 1 - (attempt + 1) = k - attempt by
          omega, e2]

/-- A filter keeping the elements below `n` keeps all of `range' s m` when
the range stops at `n`. -/
theorem filter_lt_range'_of_le {s m n : Nat} (h : s + m ≤ n) :
    (List.range' s m).filter (fun j => decide (j < n)) = List.range' s m := by
  apply List.filter_eq_self.2
  intro a ha
  have := List.mem_range'_1.1 ha
  simp only [decide_eq_true_eq]
  omega

/-- Filtering `range' 1 n` by `· < n` drops exactly its last element. -/
theorem filter_lt_range'_self (n : Nat) :
    (List.range' 1 n).filter (fun j => decide (j < n)) = List.range' 1 (n - 1) := by
  cases n with
  | zero => simp
  | succ m =>
    have hf := @filter_lt_range'_of_le 1 m (m + 1) (by omega)
    rw [List.range'_1_concat, List.filter_append, hf]
    simp
    omega

/-- After `_clear_ack_event` the registry holds no event for the key. -/
theorem findEvent_clearAckEvent (r : Registry) (k : PyVal) :
    findEvent (clearAckEvent r k) k = none := by
  unfold findEvent clearAckEvent
  simp only [Option.map_eq_none']
  rw [List.find?_eq_none]
  intro p hp
  simp only [List.mem_filter, decide_eq_true_eq] at hp
  simp [hp.2]

/-- The post outcomes recorded by a run are exactly one per attempt made. -/
theorem forwardLoopAux_posts (n : Nat) (b : Int) (send : Nat → PyDict)
    (ack : Nat → Bool) (post : Nat → PostOutcome) (jitter : Nat → Rat) :
    ∀ (remaining attempt : Nat),
    (forwardLoopAux n b send ack post jitter remaining attempt).posts =
      (forwardLoopAux n b send ack post jitter remaining attempt).attempts.map post := by
  intro remaining
  induction remaining with
  | zero => intro attempt; simp [forwardLoopAux]
  | succ r ih =>
    intro attempt
    by_cases h : ack attempt <;> simp [forwardLoopAux, h, ih (attempt + 1)]

/-- The payloads sent by a run are exactly one per attempt made. -/
theorem forwardLoopAux_sent (n : Nat) (b : Int) (send : Nat → PyDict)
    (ack : Nat → Bool) (post : Nat → PostOutcome) (jitter : Nat → Rat) :
    ∀ (remaining attempt : Nat),
    (forwardLoopAux n b send ack post jitter remaining attempt).sent =
      (forwardLoopAux n b send ack post jitter remaining attempt).attempts.map send := by
  intro remaining
  induction remaining with
  | zero => intro attempt; simp [forwardLoopAux]
  | succ r ih =>
    intro attempt
    by_cases h : ack attempt <;> simp [forwardLoopAux, h, ih (attempt + 1)]

/-- The attempt numbers of any run form a contiguous range. -/
theorem forwardLoopAux_attempts_range (n : Nat) (b : Int) (send : Nat → PyDict)
    (ack : Nat → Bool) (post : Nat → PostOutcome) (jitter : Nat → Rat) :
    ∀ (remaining attempt : Nat), ∃ m,
    (forwardLoopAux n b send ack post jitter remaining attempt).attempts =
      List.range' attempt m := by
  intro remaining
  induction remaining with
  | zero => intro attempt; exact ⟨0, by simp [forwardLoopAux]⟩
  | succ r ih =>
    intro attempt
    by_cases h : ack attempt
    · exact ⟨1, by simp [forwardLoopAux, h]⟩
    · obtain ⟨m, hm⟩ := ih (attempt + 1)
      exact ⟨m + 1, by simp [forwardLoopAux, h, hm, List.range'_succ]⟩

/-- Every control-relevant projection of a run is unchanged when the POST
outcomes change: the loop body catches every exception and ignores the
response. -/
theorem forwardLoopAux_post_independent (n : Nat) (b : Int) (send : Nat → PyDict)
    (ack : Nat → Bool) (post1 post2 : Nat → PostOutcome) (jitter : Nat → Rat) :
    ∀ (remaining attempt : Nat),
    (forwardLoopAux n b send ack post1 jitter remaining attempt).attempts =
      (forwardLoopAux n b send ack post2 jitter remaining attempt).attempts ∧
    (forwardLoopAux n b send ack post1 jitter remaining attempt).sent =
      (forwardLoopAux n b send ack post2 jitter remaining attempt).sent ∧
    (forwardLoopAux n b send ack post1 jitter remaining attempt).waits =
      (forwardLoopAux n b send ack post2 jitter remaining attempt).waits ∧
    (forwardLoopAux n b send ack post1 jitter remaining attempt).sleeps =
      (forwardLoopAux n b send ack post2 jitter remaining attempt).sleeps ∧
    (forwardLoopAux n b send ack post1 jitter remaining attempt).final =
      (forwardLoopAux n b send ack post2 jitter remaining attempt).final ∧
    (forwardLoopAux n b send ack post1 jitter remaining attempt).removed =
      (forwardLoopAux n b send ack post2 jitter remaining attempt).removed := by
  intro remaining
  induction remaining with
  | zero => intro attempt; simp [forwardLoopAux]
  | succ r ih =>
    intro attempt
    obtain ⟨h1, h2, h3, h4, h5, h6⟩ := ih (attempt + 1)
    by_cases h : ack attempt <;>
      simp [forwardLoopAux, h, h1, h2, h3, h4, h5, h6]

/-! ## Claim theorems for the worker -/

/-- C1: with the acknowledgment signal never set and configured maximum
attempts `N ≥ 1`, the worker performs exactly the attempts `1, …, N`
(waiting once per attempt, sleeping after each non-final one), terminates
exhausted, and the signal removal leaves no event for the key in the
registry. -/
theorem worker_unacknowledged_exhausts :
    ∀ (n : Nat) (b : Int) (payload : PyDict) (uuid : String)
      (post : Nat → PostOutcome) (jitter : Nat → Rat), 1 ≤ n →
    (forwardWithAck (n : Int) b payload uuid (fun _ => false) post jitter).attempts
        = List.range' 1 n ∧
    (forwardWithAck (n : Int) b payload uuid (fun _ => false) post jitter).attempts.length
        = n ∧
    (forwardWithAck (n : Int) b payload uuid (fun _ => false) post jitter).final
        = FinalState.exhausted ∧
    (forwardWithAck (n : Int) b payload uuid (fun _ => false) post jitter).removed
        = true ∧
    (forwardWithAck (n : Int) b payload uuid (fun _ => false) post jitter).waits
        = n ∧
    (forwardWithAck (n : Int) b payload uuid (fun _ => false) post jitter).sleeps
        = (List.range' 1 (n - 1)).map (fun j => sleepSeconds b j (jitter j)) ∧
    (∀ (r : Registry) (key : PyVal), findEvent (clearAckEvent r key) key = none) := by
  intro n b payload uuid post jitter _
  unfold forwardWithAck
  rw [Int.toNat_natCast]
  rw [forwardLoopAux_exhaust n b (enrich payload (mkDeliveryId payload uuid))
    (fun _ => false) post jitter (fun _ => rfl) n 1]
  refine ⟨rfl, by simp, rfl, rfl, rfl, ?_, fun r key => findEvent_clearAckEvent r key⟩
  rw [filter_lt_range'_self]

/-- Witness for C1 at `N = 3`. -/
theorem worker_unacknowledged_exhausts_witness :
    (forwardWithAck ((3 : Nat) : Int) 2 [] "u" (fun _ => false)
      (fun _ => PostOutcome.response 200) (fun _ => 0)).attempts = List.range' 1 3 :=
  (worker_unacknowledged_exhausts 3 2 [] "u" (fun _ => PostOutcome.response 200)
    (fun _ => 0) (by norm_num)).1

/-- C2: if the wait of attempt `k` (with `1 ≤ k ≤ N`) is the first to see
the signal set, the worker performs exactly attempts `1, …, k`, waits
exactly `k` times, sleeps only the `k - 1` backoffs that preceded attempt
`k`, terminates acknowledged, and leaves no event for the key after the
removal. -/
theorem worker_acknowledged_at_attempt :
    ∀ (n k : Nat) (b : Int) (payload : PyDict) (uuid : String) (ack : Nat → Bool)
      (post : Nat → PostOutcome) (jitter : Nat → Rat),
    1 ≤ k → k ≤ n → (∀ j, j < k → ack j = false) → ack k = true →
    (forwardWithAck (n : Int) b payload uuid ack post jitter).attempts
        = List.range' 1 k ∧
    (forwardWithAck (n : Int) b payload uuid ack post jitter).attempts.length = k ∧
    (forwardWithAck (n : Int) b payload uuid ack post jitter).final
        = FinalState.acknowledged ∧
    (forwardWithAck (n : Int) b payload uuid ack post jitter).removed = true ∧
    (forwardWithAck (n : Int) b payload uuid ack post jitter).waits = k ∧
    (forwardWithAck (n : Int) b payload uuid ack post jitter).sleeps
        = (List.range' 1 (k - 1)).map (fun j => sleepSeconds b j (jitter j)) ∧
    (forwardWithAck (n : Int) b payload uuid ack post jitter).sleeps.length = k - 1 ∧
    (∀ (r : Registry) (key : PyVal), findEvent (clearAckEvent r key) key = none) := by
  intro n k b payload uuid ack post jitter hk1 hkn hbefore hack
  unfold forwardWithAck
  rw [Int.toNat_natCast]
  rw [forwardLoopAux_ack n b (enrich payload (mkDeliveryId payload uuid)) ack post
    jitter k hbefore hack n 1 (by omega) (by omega)]
  have e1 : k + 1 - 1 = k := by omega
  have hfil := @filter_lt_range'_of_le 1 (k - 1) n (by omega)
  refine ⟨by rw [e1], by simp [e1], rfl, rfl, by rw [e1], ?_, ?_, fun r key =>
    findEvent_clearAckEvent r key⟩
  · simp only [show k - 1 = k - 1 from rfl, hfil]
  · simp [hfil]

/-- Witness for C2 at `N = 3`, acknowledgment first seen in attempt 1's wait. -/
theorem worker_acknowledged_at_attempt_witness :
    (forwardWithAck ((3 : Nat) : Int) 2 [] "u" (fun j => decide (j = 1))
      (fun _ => PostOutcome.response 200) (fun _ => 0)).attempts = List.range' 1 1 :=
  (worker_acknowledged_at_attempt 3 1 2 [] "u" (fun j => decide (j = 1))
    (fun _ => PostOutcome.response 200) (fun _ => 0) (by norm_num) (by norm_num)
    (fun j hj => by obtain rfl := Nat.lt_one_iff.mp hj; rfl) rfl).1

/-- C5: the worker's control flow — attempts made, payloads sent, waits,
sleeps, terminal state, signal removal — is the same function of the
acknowledgment schedule whatever the POST outcomes are, transport errors
included; the outcomes are merely recorded, one per attempt. -/
theorem transport_failure_not_propagated :
    ∀ (n b : Int) (payload : PyDict) (uuid : String) (ack : Nat → Bool)
      (post1 post2 : Nat → PostOutcome) (jitter : Nat → Rat),
    (forwardWithAck n b payload uuid ack post1 jitter).attempts =
      (forwardWithAck n b payload uuid ack post2 jitter).attempts ∧
    (forwardWithAck n b payload uuid ack post1 jitter).sent =
      (forwardWithAck n b payload uuid ack post2 jitter).sent ∧
    (forwardWithAck n b payload uuid ack post1 jitter).waits =
      (forwardWithAck n b payload uuid ack post2 jitter).waits ∧
    (forwardWithAck n b payload uuid ack post1 jitter).sleeps =
      (forwardWithAck n b payload uuid ack post2 jitter).sleeps ∧
    (forwardWithAck n b payload uuid ack post1 jitter).final =
      (forwardWithAck n b payload uuid ack post2 jitter).final ∧
    (forwardWithAck n b payload uuid ack post1 jitter).removed =
      (forwardWithAck n b payload uuid ack post2 jitter).removed ∧
    (forwardWithAck n b payload uuid ack post1 jitter).posts =
      (forwardWithAck n b payload uuid ack post1 jitter).attempts.map post1 := by
  intro n b payload uuid ack post1 post2 jitter
  unfold forwardWithAck
  refine ⟨?_, ?_, ?_, ?_, ?_, ?_, ?_⟩
  · exact (forwardLoopAux_post_independent _ _ _ _ _ _ _ _ _).1
  · exact (forwardLoopAux_post_independent _ _ _ _ _ _ _ _ _).2.1
  · exact (forwardLoopAux_post_independent _ _ _ _ _ _ _ _ _).2.2.1
  · exact (forwardLoopAux_post_independent _ _ _ _ _ _ _ _ _).2.2.2.1
  · exact (forwardLoopAux_post_independent _ _ _ _ _ _ _ _ _).2.2.2.2.1
  · exact (forwardLoopAux_post_independent _ _ _ _ _ _ _ _ _).2.2.2.2.2
  · exact forwardLoopAux_posts _ _ _ _ _ _ _ _

/-- C10: with a non-positive configured maximum the loop body never runs —
no attempt, no wait, no sleep — yet the worker still reaches the exhausted
epilogue and the signal removal leaves no event for the key. -/
theorem worker_nonpositive_max :
    ∀ (n b : Int) (payload : PyDict) (uuid : String) (ack : Nat → Bool)
      (post : Nat → PostOutcome) (jitter : Nat → Rat), n ≤ 0 →
    forwardWithAck n b payload uuid ack post jitter =
      { attempts := [], sent := [], posts := [], waits := 0, sleeps := [],
        final := .exhausted, removed := true } ∧
    (∀ (r : Registry) (key : PyVal), findEvent (clearAckEvent r key) key = none) := by
  intro n b payload uuid ack post jitter h
  unfold forwardWithAck
  rw [Int.toNat_of_nonpos h]
  exact ⟨rfl, fun r key => findEvent_clearAckEvent r key⟩

/-- Witness for C10 at `MAX_DOWNSTREAM = -2`. -/
theorem worker_nonpositive_max_witness :
    forwardWithAck (-2) 2 [] "u" (fun _ => false) (fun _ => PostOutcome.response 200)
      (fun _ => 0) =
    { attempts := [], sent := [], posts := [], waits := 0, sleeps := [],
      final := .exhausted, removed := true } :=
  (worker_nonpositive_max (-2) 2 [] "u" (fun _ => false)
    (fun _ => PostOutcome.response 200) (fun _ => 0) (by norm_num)).1

/-! ## Backoff policy -/

/-- Python truncation agrees with the floor on non-negative rationals. -/
theorem pyTrunc_eq_floor (q : Rat) (h : 0 ≤ q) : pyTrunc q = Int.floor q := by
  rw [Rat.floor_def]
  exact Int.tdiv_eq_ediv (Rat.num_nonneg.2 h) (Int.ofNat_nonneg _)

/-- C3 as stated is false: with base backoff `2` and attempt `1`, the
jitter outcome `-1/5` (a legal value of `random.uniform(-0.2, 0.2)`) gives
`sleep_s = max(1, int(2 - 0.4)) = 1`, strictly below the claimed lower
bound `max(1, 2 * 0.8) = 8/5`, because `int()` truncates before the floor
at 1 is applied. -/
theorem backoff_claim_counterexample :
    (-(1/5) : Rat) ≤ 1/5 ∧
    sleepSeconds 2 1 (-(1/5)) = 1 ∧
    ((sleepSeconds 2 1 (-(1/5)) : Int) : Rat)
      < max 1 ((4/5 : Rat) * ((backoffBase 2 1 : Int) : Rat)) := by
  have hx : ((backoffBase 2 1 : Int) : Rat) + ((backoffBase 2 1 : Int) : Rat) * (-(1/5))
      = 8/5 := by
    norm_num [backoffBase]
  have h1 : sleepSeconds 2 1 (-(1/5)) = 1 := by
    unfold sleepSeconds
    rw [hx, pyTrunc_eq_floor _ (by norm_num)]
    have hf : Int.floor ((8:Rat)/5) = 1 := by
      rw [Int.floor_eq_iff]
      norm_num
    rw [hf]
    norm_num
  refine ⟨by norm_num, h1, ?_⟩
  rw [h1]
  have hb2 : ((backoffBase 2 1 : Int) : Rat) = 2 := by norm_num [backoffBase]
  rw [hb2, max_eq_right (by norm_num : (1:Rat) ≤ (4/5) * 2)]
  norm_num

/-- C3 amended: for base `b ≥ 1`, attempt `a ≥ 1` and any jitter outcome
`j ∈ [-1/5, 1/5]`, the slept delay lies within
`[max(1, ⌊0.8 * b * 2^(a-1)⌋), 1.2 * b * 2^(a-1)]` — the claimed interval
with its lower endpoint floored, which is what the `int()` truncation
in the source actually guarantees. -/
theorem backoff_delay_bounds :
    ∀ (b : Int) (a : Nat) (j : Rat), 1 ≤ b → 1 ≤ a → -(1/5) ≤ j → j ≤ 1/5 →
    max 1 (Int.floor ((4/5 : Rat) * ((backoffBase b a : Int) : Rat))) ≤ sleepSeconds b a j ∧
    ((sleepSeconds b a j : Int) : Rat) ≤ (6/5 : Rat) * ((backoffBase b a : Int) : Rat) := by
  intro b a j hb _ hj1 hj2
  have h2p : (0 : Int) < 2 ^ (a - 1) := pow_pos (by norm_num) _
  have h2one : (1 : Int) ≤ 2 ^ (a - 1) := h2p
  have hB : (1 : Int) ≤ backoffBase b a := by
    unfold backoffBase; nlinarith
  have hBq : (1 : Rat) ≤ ((backoffBase b a : Int) : Rat) := by exact_mod_cast hB
  have hx_low : (4/5 : Rat) * ((backoffBase b a : Int) : Rat) ≤
      ((backoffBase b a : Int) : Rat) + ((backoffBase b a : Int) : Rat) * j := by nlinarith
  have hx_high : ((backoffBase b a : Int) : Rat) + ((backoffBase b a : Int) : Rat) * j ≤
      (6/5 : Rat) * ((backoffBase b a : Int) : Rat) := by nlinarith
  have hx_nonneg : (0 : Rat) ≤
      ((backoffBase b a : Int) : Rat) + ((backoffBase b a : Int) : Rat) * j := by nlinarith
  unfold sleepSeconds
  rw [pyTrunc_eq_floor _ hx_nonneg]
  constructor
  · exact max_le_max (le_refl _) (Int.floor_mono hx_low)
  · rw [Int.cast_max]
    refine max_le (by nlinarith) (le_trans (Int.floor_le _) hx_high)

/-- Witness for the amended C3 at `b = 2`, `a = 1`, `j = 0`. -/
theorem backoff_delay_bounds_witness :
    max 1 (Int.floor ((4/5 : Rat) * ((backoffBase 2 1 : Int) : Rat))) ≤ sleepSeconds 2 1 0 ∧
    ((sleepSeconds 2 1 0 : Int) : Rat) ≤ (6/5 : Rat) * ((backoffBase 2 1 : Int) : Rat) :=
  backoff_delay_bounds 2 1 0 (by norm_num) (by norm_num) (by norm_num) (by norm_num)

/-! ## Acknowledgment registry -/

/-- A key just stored at the head of the registry is found. -/
theorem findEvent_cons_self (l : List (PyVal × AckEvent)) (nid : Nat) (k : PyVal) (e : AckEvent) :
    findEvent ⟨(k, e) :: l, nid⟩ k = some e := by
  simp [findEvent, List.find?_cons]

/-- C4: `_get_or_create_ack_event` returns the stored event and leaves the
registry unchanged when the key is mapped; otherwise it stores and returns
a fresh unset event (distinct from every event already stored, given the
id discipline), and a repeated call with no intervening removal returns
the same instance. -/
theorem registry_get_or_create :
    ∀ (r : Registry) (k : PyVal),
    (∀ e, findEvent r k = some e → getOrCreateAckEvent r k = (e, r)) ∧
    (findEvent r k = none →
      (getOrCreateAckEvent r k).1 = ⟨r.nextId, false⟩ ∧
      (getOrCreateAckEvent r k).1.isSet = false ∧
      findEvent (getOrCreateAckEvent r k).2 k = some (getOrCreateAckEvent r k).1 ∧
      (∀ p ∈ r.events, p.2.id < r.nextId → p.2 ≠ (getOrCreateAckEvent r k).1)) ∧
    (getOrCreateAckEvent (getOrCreateAckEvent r k).2 k).1 = (getOrCreateAckEvent r k).1 := by
  intro r k
  cases h : findEvent r k with
  | some e =>
    have hg : getOrCreateAckEvent r k = (e, r) := by
      simp [getOrCreateAckEvent, h]
    refine ⟨?_, ?_, ?_⟩
    · intro e' he'
      injection he' with hh
      rw [← hh]
      exact hg
    · intro hnone
      cases hnone
    · simp [hg, getOrCreateAckEvent, h]
  | none =>
    have hg : getOrCreateAckEvent r k =
        (⟨r.nextId, false⟩, ⟨(k, ⟨r.nextId, false⟩) :: r.events, r.nextId + 1⟩) := by
      simp [getOrCreateAckEvent, h]
    have hfind := findEvent_cons_self r.events (r.nextId + 1) k ⟨r.nextId, false⟩
    refine ⟨?_, ?_, ?_⟩
    · intro e' he'
      cases he'
    · intro _
      refine ⟨by rw [hg], by rw [hg], ?_, ?_⟩
      · rw [hg]
        exact hfind
      · intro p hp hid
        rw [hg]
        intro hc
        rw [hc] at hid
        simp at hid
    · rw [hg]
      simp [getOrCreateAckEvent, hfind]

/-- Witness for C4: looking up a mapped key returns the stored event and
leaves the registry unchanged. -/
theorem registry_get_or_create_witness :
    getOrCreateAckEvent ⟨[(PyVal.str "p", ⟨0, false⟩)], 1⟩ (PyVal.str "p")
      = (⟨0, false⟩, ⟨[(PyVal.str "p", ⟨0, false⟩)], 1⟩) :=
  (registry_get_or_create ⟨[(PyVal.str "p", ⟨0, false⟩)], 1⟩ (PyVal.str "p")).1 ⟨0, false⟩ rfl

/-! ## Acknowledgment endpoint and authorization -/

/-- C6 amended: the `/ack` handler returns 400 on invalid JSON, 401 when
the auth check fails, 400 when the body is a JSON object without a truthy
`payment_id`/`x_name` (auth passing), 200 with the confirmation body when
a key is supplied (auth passing) — but a valid non-object JSON body passes
the auth check and then raises `AttributeError` out of the handler instead
of producing a 400. -/
theorem ack_endpoint_statuses :
    ∀ (auth : Option String) (req : AckRequest) (r : Registry),
    (req.body = none → (ackHandler auth req r).1 = .response 400 "Invalid JSON") ∧
    (∀ j, req.body = some j →
      verifyAuth auth (bodyTokenOf j) req.headerToken = false →
      (ackHandler auth req r).1 = .response 401 "Unauthorized") ∧
    (∀ d, req.body = some (.obj d) →
      verifyAuth auth (bodyTokenOf (.obj d)) req.headerToken = true →
      truthy (pyOr (dictGet d "payment_id") (dictGet d "x_name")) = false →
      (ackHandler auth req r).1 = .response 400 "Missing payment_id") ∧
    (∀ d, req.body = some (.obj d) →
      verifyAuth auth (bodyTokenOf (.obj d)) req.headerToken = true →
      truthy (pyOr (dictGet d "payment_id") (dictGet d "x_name")) = true →
      (ackHandler auth req r).1 = .response 200 "acknowledged") ∧
    (req.body = some .nonObj →
      verifyAuth auth (bodyTokenOf .nonObj) req.headerToken = true →
      (ackHandler auth req r).1 = .unhandled "AttributeError") := by
  intro auth req r
  refine ⟨?_, ?_, ?_, ?_, ?_⟩
  · intro hb; simp [ackHandler, hb]
  · intro j hb hv; simp [ackHandler, hb, hv]
  · intro d hb hv ht; simp [ackHandler, hb, hv, ht]
  · intro d hb hv ht; simp [ackHandler, hb, hv, ht]
  · intro hb hv; simp [ackHandler, hb, hv]

/-- C6 as stated is false: the JSON body `1` (valid JSON, not an object)
supplies no delivery key, yet with no token configured the handler does
not return 400 — `data.get('payment_id')` raises `AttributeError`, which
escapes the handler. -/
theorem ack_endpoint_claim_counterexample :
    (ackHandler none ⟨some PyJson.nonObj, none⟩ ⟨[], 0⟩).1
        = AckOutcome.unhandled "AttributeError" ∧
    (ackHandler none ⟨some PyJson.nonObj, none⟩ ⟨[], 0⟩).1
        ≠ AckOutcome.response 400 "Missing payment_id" ∧
    (ackHandler none ⟨some PyJson.nonObj, none⟩ ⟨[], 0⟩).1
        ≠ AckOutcome.response 400 "Invalid JSON" := by
  refine ⟨rfl, by decide, by decide⟩

/-- Witness for the amended C6: the 200 case at a concrete request. -/
theorem ack_endpoint_statuses_witness :
    (ackHandler none ⟨some (PyJson.obj [("payment_id", PyVal.str "p1")]), none⟩ ⟨[], 0⟩).1
      = AckOutcome.response 200 "acknowledged" :=
  ((ack_endpoint_statuses none ⟨some (PyJson.obj [("payment_id", PyVal.str "p1")]), none⟩
    ⟨[], 0⟩).2.2.2.1) [("payment_id", PyVal.str "p1")] rfl rfl rfl

/-- C9 amended: with no truthy `AUTH_TOKEN` configured the auth check
accepts every request and the `/ack` handler never returns 401; the
`/proxy` handler returns a 401 status only by relaying a 401 received from
the Wex API, never from its own auth check. -/
theorem auth_disabled_behavior :
    ∀ (auth : Option String), authTruthy auth = false →
    (∀ (bodyTok : PyVal) (header : Option String), verifyAuth auth bodyTok header = true) ∧
    (∀ (req : AckRequest) (r : Registry) (tag : String),
      (ackHandler auth req r).1 ≠ AckOutcome.response 401 tag) ∧
    (∀ (req : AckRequest) (extractOk : Bool) (wex : WexCall) (cardOk : Bool)
       (st : Int) (tag : String),
      proxyHandler auth req extractOk wex cardOk = ProxyOutcome.response st tag →
      st = 401 → ∃ m, wex = WexCall.responded 401 m) := by
  intro auth hauth
  have hv : ∀ (bodyTok : PyVal) (header : Option String),
      verifyAuth auth bodyTok header = true := by
    intro bt hd
    cases auth with
    | none => rfl
    | some a =>
      simp [authTruthy] at hauth
      simp [verifyAuth, hauth]
  refine ⟨hv, ?_, ?_⟩
  · intro req r tag
    cases hb : req.body with
    | none => simp [ackHandler, hb]
    | some j =>
      cases j with
      | nonObj => simp [ackHandler, hb, hv]
      | obj d =>
        by_cases ht : truthy (pyOr (dictGet d "payment_id") (dictGet d "x_name")) <;>
          simp [ackHandler, hb, hv, ht]
  · intro req extractOk wex cardOk st tag hp h401
    subst h401
    cases hb : req.body with
    | none => simp [proxyHandler, hb] at hp
    | some j =>
      cases extractOk with
      | false => simp [proxyHandler, hb, hv] at hp
      | true =>
        cases wex with
        | failed => simp [proxyHandler, hb, hv] at hp
        | responded stw msg =>
          by_cases hok : (200 ≤ stw ∧ stw < 300 ∧ msg.startsWith "Success:")
          · cases cardOk with
            | false => simp [proxyHandler, hb, hv, hok] at hp
            | true => simp [proxyHandler, hb, hv, hok] at hp
          · simp [proxyHandler, hb, hv, hok] at hp
            exact ⟨msg, by rw [hp.1]⟩

/-- C9 as stated is false: with no token configured the proxy endpoint
still returns 401 when the Wex API itself answers 401 with a non-success
message, because the failure branch relays the upstream status verbatim. -/
theorem auth_disabled_claim_counterexample :
    authTruthy none = false ∧
    proxyHandler none ⟨some (PyJson.obj []), none⟩ true
      (WexCall.responded 401 "denied") true = ProxyOutcome.response 401 "error_payload" := by
  constructor
  · rfl
  · rfl

/-- Witness for the amended C9: the check accepts a mismatched header when
no token is configured. -/
theorem auth_disabled_behavior_witness :
    verifyAuth none (PyVal.str "anything") (some "whatever") = true :=
  (auth_disabled_behavior none rfl).1 (PyVal.str "anything") (some "whatever")

/-! ## Payload enrichment -/

/-- Reading back the key just assigned into a dict returns the new value. -/
theorem dictGet_dictSet_self (d : PyDict) (k : String) (v : PyVal) :
    dictGet (dictSet d k v) k = v := by
  induction d with
  | nil => simp [dictSet, dictGet]
  | cons p rest ih =>
    by_cases h : p.1 = k <;> simp [dictSet, dictGet, h, ih]

/-- Assigning one key of a dict leaves every other key unchanged. -/
theorem dictGet_dictSet_ne (d : PyDict) (k k' : String) (v : PyVal) (h : k' ≠ k) :
    dictGet (dictSet d k v) k' = dictGet d k' := by
  induction d with
  | nil =>
    have h' : k ≠ k' := Ne.symm h
    simp [dictSet, dictGet, h']
  | cons p rest ih =>
    by_cases hp : p.1 = k
    · subst hp
      have h' : p.1 ≠ k' := Ne.symm h
      simp [dictSet, dictGet, h']
    · simp [dictSet, dictGet, hp, ih]

/-- C7: when the input payload carries no truthy `_delivery_id` (as the
`/proxy` result dict never does), the delivery id is the UUID minted once
before the loop; every outbound payload is the input payload plus exactly
the two injected fields — the same `_delivery_id` on every attempt and
`_delivery_attempt` equal to the attempt number — with every other key
unchanged, and the attempt numbers of a run are strictly increasing. -/
theorem payload_enrichment :
    ∀ (n b : Int) (payload : PyDict) (uuid : String) (ack : Nat → Bool)
      (post : Nat → PostOutcome) (jitter : Nat → Rat),
    truthy (dictGet payload "_delivery_id") = false →
    mkDeliveryId payload uuid = .str uuid ∧
    (forwardWithAck n b payload uuid ack post jitter).sent
      = (forwardWithAck n b payload uuid ack post jitter).attempts.map
          (fun k => enrich payload (PyVal.str uuid) k) ∧
    (∀ k : Nat, dictGet (enrich payload (PyVal.str uuid) k) "_delivery_id"
      = PyVal.str uuid) ∧
    (∀ k : Nat, dictGet (enrich payload (PyVal.str uuid) k) "_delivery_attempt"
      = PyVal.int k) ∧
    (∀ (k : Nat) (key : String), key ≠ "_delivery_id" → key ≠ "_delivery_attempt" →
      dictGet (enrich payload (PyVal.str uuid) k) key = dictGet payload key) ∧
    (forwardWithAck n b payload uuid ack post jitter).attempts.Pairwise (· < ·) := by
  intro n b payload uuid ack post jitter hfree
  have hdid : mkDeliveryId payload uuid = .str uuid := by
    simp [mkDeliveryId, pyOr, hfree]
  refine ⟨hdid, ?_, ?_, ?_, ?_, ?_⟩
  · unfold forwardWithAck
    rw [hdid]
    exact forwardLoopAux_sent _ _ _ _ _ _ _ _
  · intro k
    unfold enrich
    rw [dictGet_dictSet_ne _ _ _ _ (by decide), dictGet_dictSet_self]
  · intro k
    unfold enrich
    rw [dictGet_dictSet_self]
  · intro k key h1 h2
    unfold enrich
    rw [dictGet_dictSet_ne _ _ _ _ h2, dictGet_dictSet_ne _ _ _ _ h1]
  · unfold forwardWithAck
    obtain ⟨m, hm⟩ := forwardLoopAux_attempts_range (Int.toNat n) b
      (enrich payload (mkDeliveryId payload uuid)) ack post jitter (Int.toNat n) 1
    rw [hm]
    exact List.pairwise_lt_range' 1 m

/-- Witness for C7: the attempt counter field of attempt 2 is 2. -/
theorem payload_enrichment_witness :
    dictGet (enrich [("payment_id", PyVal.str "p1")] (PyVal.str "u") 2) "_delivery_attempt"
      = PyVal.int 2 :=
  (payload_enrichment 3 2 [("payment_id", PyVal.str "p1")] "u" (fun _ => false)
    (fun _ => PostOutcome.response 200) (fun _ => 0) rfl).2.2.2.1 2

/-! ## Configuration loading -/

/-- C8 amended: each of the four settings takes its positive default
(5, 10, 2, 10) when the environment variable is absent, empty, or not a
parseable integer, while any parseable integer — zero and negatives
included — is loaded verbatim. -/
theorem config_loading_behavior :
    (MAX_DOWNSTREAM none = 5 ∧ ACK_TIMEOUT_SECONDS none = 10 ∧
     DOWNSTREAM_RETRY_BASE_SECONDS none = 2 ∧ DOWNSTREAM_POST_TIMEOUT_SECONDS none = 10) ∧
    (MAX_DOWNSTREAM (some "") = 5 ∧ ACK_TIMEOUT_SECONDS (some "") = 10 ∧
     DOWNSTREAM_RETRY_BASE_SECONDS (some "") = 2 ∧
     DOWNSTREAM_POST_TIMEOUT_SECONDS (some "") = 10) ∧
    (∀ v, v ≠ "" → pyParseInt v = none →
      MAX_DOWNSTREAM (some v) = 5 ∧ ACK_TIMEOUT_SECONDS (some v) = 10 ∧
      DOWNSTREAM_RETRY_BASE_SECONDS (some v) = 2 ∧
      DOWNSTREAM_POST_TIMEOUT_SECONDS (some v) = 10) ∧
    (∀ v n, v ≠ "" → pyParseInt v = some n →
      MAX_DOWNSTREAM (some v) = n ∧ ACK_TIMEOUT_SECONDS (some v) = n ∧
      DOWNSTREAM_RETRY_BASE_SECONDS (some v) = n ∧
      DOWNSTREAM_POST_TIMEOUT_SECONDS (some v) = n) := by
  refine ⟨⟨rfl, rfl, rfl, rfl⟩, ⟨rfl, rfl, rfl, rfl⟩, ?_, ?_⟩
  · intro v hne hparse
    refine ⟨?_, ?_, ?_, ?_⟩ <;>
      simp [MAX_DOWNSTREAM, ACK_TIMEOUT_SECONDS, DOWNSTREAM_RETRY_BASE_SECONDS,
        DOWNSTREAM_POST_TIMEOUT_SECONDS, loadIntConfig, hne, hparse]
  · intro v n hne hparse
    refine ⟨?_, ?_, ?_, ?_⟩ <;>
      simp [MAX_DOWNSTREAM, ACK_TIMEOUT_SECONDS, DOWNSTREAM_RETRY_BASE_SECONDS,
        DOWNSTREAM_POST_TIMEOUT_SECONDS, loadIntConfig, hne, hparse]

/-- C8 as stated is false: the environment value `"0"` parses, so
`MAX_DOWNSTREAM` loads as `0` — not an integer `≥ 1` — instead of falling
back to a positive default. -/
theorem config_zero_counterexample :
    MAX_DOWNSTREAM (some "0") = 0 ∧ ¬ (1 ≤ MAX_DOWNSTREAM (some "0")) := by
  refine ⟨rfl, by decide⟩

/-- Witness for the amended C8: a parseable value is loaded verbatim. -/
theorem config_loading_behavior_witness :
    MAX_DOWNSTREAM (some "7") = 7 ∧ ACK_TIMEOUT_SECONDS (some "7") = 7 ∧
    DOWNSTREAM_RETRY_BASE_SECONDS (some "7") = 7 ∧
    DOWNSTREAM_POST_TIMEOUT_SECONDS (some "7") = 7 :=
  config_loading_behavior.2.2.2 "7" 7 (by decide) (by decide)
